import Mathlib

/-!
# Verification of the b402 payment core

Shallow embedding of the b402 repository's payment verification and
settlement core, together with proofs about it:

* `verify` / `settle` — the EIP-2612 Permit scheme facilitator
  (`typescript/packages/x402/src/schemes/exact/evm/permit/facilitator.ts`).
* `detectTokenPaymentMethods` / `getRecommendedPaymentMethod` — the token
  capability detector (`typescript/packages/x402-server/src/token-detection.ts`).
* `X402Server` pipeline `parse → verify → settle`
  (`typescript/packages/x402-server/src/server.ts`).
* The legacy `X402Server`'s `validatePaymentPayload` and `validateNetwork`.

Modelling conventions:

* TypeScript `BigInt` decimal strings (amounts, nonces, deadlines, chain ids)
  are modelled as `Nat`; `BigInt` equality/ordering on well-formed decimal
  strings agrees with `Nat` equality/ordering.
* A thrown JavaScript exception crossing a function boundary is modelled as
  `Except.error`; a caught exception is handled where the `catch` sits in the
  source.  Chain I/O (RPC calls) is a `ChainView`/`DetectChain` record of
  fallible functions: one record models one deterministic outcome of the
  chain and the RPC transport for the duration of a call.
* `undefined`/absent (falsy) optional fields are modelled as `Option`, with
  `none` for absence.
* viem's `getAddress` (checksum normalization) is modelled as `jsToLower`;
  equality of `getAddress` images on valid hex addresses coincides with
  equality of lower-casings.
* Every chain RPC the source performs is recorded in a `List ChainOp` trace
  (`read`/`write`), so "performs no state-mutating call" and "performs no
  chain read" are provable properties of the embedding.
-/

/-- JavaScript `String.prototype.toLowerCase` (ASCII range suffices for
hex addresses and selectors). -/
def jsToLower (s : String) : String := String.mk (s.data.map Char.toLower)

/-- `charsContain sub l` is true when `sub` occurs as a contiguous
sublist of `l`. -/
def charsContain (sub : List Char) : List Char → Bool
  | [] => sub.isEmpty
  | c :: cs => List.isPrefixOf sub (c :: cs) || charsContain sub cs

/-- JavaScript `String.prototype.includes`: `jsIncludes s sub` is true when
`sub` occurs as a contiguous substring of `s`. -/
def jsIncludes (s sub : String) : Bool := charsContain sub.data s.data

/-- JavaScript `String.prototype.startsWith`. -/
def jsStartsWith (s pre : String) : Bool := List.isPrefixOf pre.data s.data

/-- A chain RPC performed by the core: a state read or a state-mutating write. -/
inductive ChainOp where
  | read (desc : String)
  | write (desc : String)
deriving Repr, DecidableEq

/-- Whether a chain operation is a state-mutating write. -/
def ChainOp.isWrite : ChainOp → Bool
  | .read _ => false
  | .write _ => true

/-- The `authorization` object of a Permit payment payload
(owner, spender, value, nonce, deadline; decimal strings as `Nat`). -/
structure PermitAuthorization where
  owner : String
  spender : String
  value : Nat
  nonce : Nat
  deadline : Nat
deriving Repr, DecidableEq

/-- The scheme-discriminated `payload` of a Permit payment payload. -/
structure PermitPayloadInner where
  authorizationType : String
  signature : String
  authorization : PermitAuthorization
deriving Repr, DecidableEq

/-- A `PermitPaymentPayload`: wire envelope fields plus the permit payload. -/
structure PermitPaymentPayload where
  x402Version : Nat
  scheme : String
  network : String
  payload : PermitPayloadInner
deriving Repr, DecidableEq

/-- The open `extra` map of a requirement, restricted to the keys this core
reads: token `name`/`version` for the EIP-712 domain and the relayer address. -/
structure RequirementExtra where
  name : Option String := none
  version : Option String := none
  relayer : Option String := none
deriving Repr, DecidableEq

/-- A `PaymentRequirements` record (amounts as `Nat`, see module header). -/
structure PaymentRequirements where
  scheme : String
  network : String
  maxAmountRequired : Nat
  payTo : String
  asset : String
  maxTimeoutSeconds : Nat := 300
  resource : String := ""
  extra : RequirementExtra := {}
deriving Repr, DecidableEq

/-- A `VerifyResponse` from a scheme facilitator. -/
structure VerifyResponse where
  isValid : Bool
  invalidReason : Option String := none
  payer : Option String := none
deriving Repr, DecidableEq

/-- A `SettleResponse` from a scheme facilitator. -/
structure SettleResponse where
  success : Bool
  errorReason : Option String := none
  transaction : String
  network : String
  payer : String
deriving Repr, DecidableEq

/-- The arguments of the EIP-712 Permit typed-data signature check: the
message fields, the reconstructed domain, and the submitted signature. -/
structure SigCheckArgs where
  owner : String
  spender : String
  value : Nat
  nonce : Nat
  deadline : Nat
  name : String
  version : String
  chainId : Nat
  verifyingContract : String
  signature : String
deriving Repr, DecidableEq

/-- The read-only chain capability consumed by the Permit verifier, one field
per external call the source makes: `getNetworkId` (throws on an unsupported
network, modelled as `Option`), the token `name()` read, `getVersion`, viem's
`verifyTypedData` (returns whether the recovered signer matches `owner`), and
`getERC20Balance`.  `Except.error` models a thrown RPC/transport failure. -/
structure ChainView where
  networkId : String → Option Nat
  tokenName : String → Except String String
  tokenVersion : String → Except String String
  verifySig : SigCheckArgs → Except String Bool
  balanceOf : String → String → Except String Nat

/-- The fixed scheme identifier (`SCHEME` of `schemes/exact`). -/
def SCHEME : String := "exact"

/-- Embedding of `verify` from
`x402/src/schemes/exact/evm/permit/facilitator.ts`.  Returns the outcome
(`Except.error` = an exception escaping `verify`) paired with the trace of
chain RPCs performed, in order.  `now` is `Math.floor(Date.now() / 1000)`. -/
def verify (c : ChainView) (now : Nat) (payload : PermitPaymentPayload)
    (paymentRequirements : PaymentRequirements) :
    Except String VerifyResponse × List ChainOp :=
  if ¬(payload.payload.authorizationType = "permit" ∧ payload.scheme = SCHEME ∧
        paymentRequirements.scheme = SCHEME) then
    (.ok { isValid := false, invalidReason := some "unsupported_scheme" }, [])
  else
    let auth := payload.payload.authorization
    -- try { chainId; name ?? readContract("name"); version ?? getVersion }
    -- catch { invalid_network }
    match c.networkId payload.network with
    | none => (.ok { isValid := false, invalidReason := some "invalid_network",
                     payer := some auth.owner }, [])
    | some chainId =>
      let nameRes : Except String String :=
        match paymentRequirements.extra.name with
        | some n => .ok n
        | none => c.tokenName paymentRequirements.asset
      let nameOps : List ChainOp :=
        match paymentRequirements.extra.name with
        | some _ => []
        | none => [ChainOp.read "name"]
      match nameRes with
      | .error _ =>
        (.ok { isValid := false, invalidReason := some "invalid_network",
               payer := some auth.owner }, nameOps)
      | .ok name =>
        let verRes : Except String String :=
          match paymentRequirements.extra.version with
          | some v => .ok v
          | none => c.tokenVersion paymentRequirements.asset
        let verOps : List ChainOp :=
          match paymentRequirements.extra.version with
          | some _ => []
          | none => [ChainOp.read "version"]
        match verRes with
        | .error _ =>
          (.ok { isValid := false, invalidReason := some "invalid_network",
                 payer := some auth.owner }, nameOps ++ verOps)
        | .ok version =>
          let args : SigCheckArgs :=
            { owner := auth.owner, spender := auth.spender, value := auth.value,
              nonce := auth.nonce, deadline := auth.deadline, name := name,
              version := version, chainId := chainId,
              verifyingContract := paymentRequirements.asset,
              signature := payload.payload.signature }
          let sigOps := nameOps ++ verOps ++ [ChainOp.read "verifyTypedData"]
          match c.verifySig args with
          | .error e => (.error e, sigOps)  -- uncaught: escapes verify
          | .ok recoveredAddress =>
            if ¬recoveredAddress then
              (.ok { isValid := false, invalidReason := some "invalid_permit_signature",
                     payer := some auth.owner }, sigOps)
            else if auth.deadline < now then
              (.ok { isValid := false, invalidReason := some "permit_expired",
                     payer := some auth.owner }, sigOps)
            else if ¬(jsToLower auth.spender = jsToLower paymentRequirements.payTo) then
              (.ok { isValid := false, invalidReason := some "invalid_spender_address",
                     payer := some auth.owner }, sigOps)
            else
              let balOps := sigOps ++ [ChainOp.read "balanceOf"]
              match c.balanceOf paymentRequirements.asset auth.owner with
              | .error e => (.error e, balOps)  -- uncaught: escapes verify
              | .ok balance =>
                if balance < paymentRequirements.maxAmountRequired then
                  (.ok { isValid := false, invalidReason := some "insufficient_funds",
                         payer := some auth.owner }, balOps)
                else if auth.value < paymentRequirements.maxAmountRequired then
                  (.ok { isValid := false,
                         invalidReason := some "invalid_exact_evm_payload_authorization_value",
                         payer := some auth.owner }, balOps)
                else
                  (.ok { isValid := true, payer := some auth.owner }, balOps)

/-- The write capability consumed by the Permit settlement path: the
`settleWithPermit` contract write (arguments: the `payTo` settlement contract,
token, owner, value, deadline, signature — the `(v, r, s)` split of the
signature performed by `splitSignature` is absorbed into the collaborator) and
`waitForTransactionReceipt` (returns whether the receipt status is
`"success"`).  `Except.error` models a thrown submission/transport failure. -/
structure WalletView where
  chain : ChainView
  writeSettleWithPermit :
    String → String → String → Nat → Nat → String → Except String String
  waitForReceipt : String → Except String Bool

/-- Embedding of `settle` from
`x402/src/schemes/exact/evm/permit/facilitator.ts`, with the chain-RPC trace
(the re-run verification's ops followed by the settlement write and the
receipt wait). -/
def settle (w : WalletView) (now : Nat) (paymentPayload : PermitPaymentPayload)
    (paymentRequirements : PaymentRequirements) :
    Except String SettleResponse × List ChainOp :=
  if ¬(paymentPayload.payload.authorizationType = "permit") then
    (.ok { success := false, errorReason := some "invalid_authorization_type",
           transaction := "", network := paymentPayload.network, payer := "" }, [])
  else
    -- Re-verify to ensure the payment is still valid
    match verify w.chain now paymentPayload paymentRequirements with
    | (.error e, ops) => (.error e, ops)  -- uncaught: escapes settle
    | (.ok valid, ops) =>
      if ¬valid.isValid then
        (.ok { success := false, network := paymentPayload.network, transaction := "",
               errorReason := some (valid.invalidReason.getD "invalid_payment"),
               payer := paymentPayload.payload.authorization.owner }, ops)
      else
        let auth := paymentPayload.payload.authorization
        let writeOps := ops ++ [ChainOp.write "settleWithPermit"]
        match w.writeSettleWithPermit paymentRequirements.payTo
            paymentRequirements.asset auth.owner auth.value auth.deadline
            paymentPayload.payload.signature with
        | .error e => (.error e, writeOps)  -- uncaught: escapes settle
        | .ok transactionHash =>
          let receiptOps := writeOps ++ [ChainOp.read "waitForTransactionReceipt"]
          match w.waitForReceipt transactionHash with
          | .error e => (.error e, receiptOps)  -- uncaught: escapes settle
          | .ok status =>
            if ¬(status = true) then
              (.ok { success := false, errorReason := some "transaction_failed",
                     transaction := transactionHash,
                     network := paymentPayload.network, payer := auth.owner }, receiptOps)
            else
              (.ok { success := true, transaction := transactionHash,
                     network := paymentPayload.network, payer := auth.owner }, receiptOps)

/-!
## Token capability detector (`x402-server/src/token-detection.ts`)
-/

/-- EIP-3009 method selector variants scanned for in token bytecode. -/
def EIP3009_SIGNATURES : List String := ["0xe3ee160e", "0xcf092995"]

/-- EIP-2612 `permit(address,address,uint256,uint256,uint8,bytes32,bytes32)`
selector. -/
def EIP2612_PERMIT : String := "0xd505accf"

/-- Canonical Uniswap Permit2 contract address (identical on every chain). -/
def PERMIT2_ADDRESS : String := "0x000000000022D473030F116dDEE9F6B43aC78BA3"

/-- EIP-1967 implementation storage slot. -/
def EIP1967_IMPLEMENTATION_SLOT : String :=
  "0x360894a13ba1a3210667c828492db98dca3e2076cc3735a920a3ca505d382bbc"

/-- EIP-1822 (UUPS) implementation storage slot. -/
def EIP1822_IMPLEMENTATION_SLOT : String :=
  "0x7050c9e0f4ca769c69bd3a8ef740bc37934f8e2c036e5a723fd8ee048ed3f8c3"

/-- The 32-byte zero word as returned by `getStorageAt`. -/
def ZERO_WORD : String :=
  "0x0000000000000000000000000000000000000000000000000000000000000000"

/-- The zero address. -/
def ZERO_ADDRESS : String := "0x0000000000000000000000000000000000000000"

/-- JavaScript `s.slice(-40)`: the last 40 characters of `s`. -/
def jsSliceLast40 (s : String) : String :=
  String.mk (s.data.drop (s.data.length - 40))

/-- The read-only chain capability consumed by the detector: `getBytecode`
(`Option` = `undefined` for an empty account), `getStorageAt`, and the
`implementation()` accessor call.  `Except.error` models a thrown RPC
failure (always caught inside the detector). -/
structure DetectChain where
  getBytecode : String → Except String (Option String)
  getStorageAt : String → String → Except String (Option String)
  callImplementation : String → Except String String

/-- Embedding of `getImplementationAddress` (token-detection.ts): try the
EIP-1967 slot, then the EIP-1822 slot, then an `implementation()` call; all
failures are caught and fall through.  The `Nat` counts chain reads made. -/
def getImplementationAddress (c : DetectChain) (proxyAddress : String) :
    Option String × Nat :=
  -- Method 1: EIP-1967 storage slot
  let m1 : Option String :=
    match c.getStorageAt proxyAddress EIP1967_IMPLEMENTATION_SLOT with
    | .error _ => none
    | .ok none => none
    | .ok (some implSlotData) =>
      if implSlotData ≠ ZERO_WORD then
        let implAddress := "0x" ++ jsSliceLast40 implSlotData
        if implAddress ≠ ZERO_ADDRESS then some implAddress else none
      else none
  match m1 with
  | some a => (some a, 1)
  | none =>
    -- Method 2: EIP-1822 UUPS storage slot
    let m2 : Option String :=
      match c.getStorageAt proxyAddress EIP1822_IMPLEMENTATION_SLOT with
      | .error _ => none
      | .ok none => none
      | .ok (some uupsSlotData) =>
        if uupsSlotData ≠ ZERO_WORD then
          let implAddress := "0x" ++ jsSliceLast40 uupsSlotData
          if implAddress ≠ ZERO_ADDRESS then some implAddress else none
        else none
    match m2 with
    | some a => (some a, 2)
    | none =>
      -- Method 3: implementation() accessor
      match c.callImplementation proxyAddress with
      | .error _ => (none, 3)
      | .ok implAddress =>
        if implAddress ≠ "" ∧ implAddress ≠ ZERO_ADDRESS then
          (some implAddress, 3)
        else (none, 3)

/-- Embedding of `hasMethod` (token-detection.ts, proxy-aware variant): scan
the bytecode for the selector, resolving through proxy indirection when the
direct scan misses.  Errors are caught, yielding `false`. -/
def hasMethod (c : DetectChain) (tokenAddress methodSelector : String) :
    Bool × Nat :=
  match c.getBytecode tokenAddress with
  | .error _ => (false, 1)
  | .ok none => (false, 1)
  | .ok (some code) =>
    if jsIncludes (jsToLower code) (jsToLower (methodSelector.drop 2)) then
      (true, 1)
    else
      match getImplementationAddress c tokenAddress with
      | (none, n) => (false, 1 + n)
      | (some implAddress, n) =>
        match c.getBytecode implAddress with
        | .error _ => (false, 1 + n + 1)
        | .ok none => (false, 1 + n + 1)
        | .ok (some implCode) =>
          (jsIncludes (jsToLower implCode) (jsToLower (methodSelector.drop 2)),
           1 + n + 1)

/-- Embedding of `hasAnyMethod` (token-detection.ts, proxy-aware variant):
like `hasMethod` for a list of selector variants. -/
def hasAnyMethod (c : DetectChain) (tokenAddress : String)
    (methodSelectors : List String) : Bool × Nat :=
  match c.getBytecode tokenAddress with
  | .error _ => (false, 1)
  | .ok none => (false, 1)
  | .ok (some code) =>
    if methodSelectors.any
        (fun selector => jsIncludes (jsToLower code) (jsToLower (selector.drop 2))) then
      (true, 1)
    else
      match getImplementationAddress c tokenAddress with
      | (none, n) => (false, 1 + n)
      | (some implAddress, n) =>
        match c.getBytecode implAddress with
        | .error _ => (false, 1 + n + 1)
        | .ok none => (false, 1 + n + 1)
        | .ok (some implCode) =>
          (methodSelectors.any
             (fun selector =>
               jsIncludes (jsToLower implCode) (jsToLower (selector.drop 2))),
           1 + n + 1)

/-- Embedding of `checkPermit2Support` (token-detection.ts): Permit2 is
universally available when the canonical contract has bytecode on the chain. -/
def checkPermit2Support (c : DetectChain) : Bool × Nat :=
  match c.getBytecode PERMIT2_ADDRESS with
  | .error _ => (false, 1)
  | .ok none => (false, 1)
  | .ok (some _) => (true, 1)

/-- Raw detection flags of a token. -/
structure TokenDetails where
  hasEIP3009 : Bool
  hasPermit : Bool
  hasPermit2Approval : Bool
deriving Repr, DecidableEq

/-- A `TokenPaymentCapabilities` detection result. -/
structure TokenPaymentCapabilities where
  address : String
  supportedMethods : List String
  details : TokenDetails
deriving Repr, DecidableEq

/-- Embedding of `detectTokenPaymentMethods` (token-detection.ts): run the
three capability checks against the lower-cased address and assemble the
supported-method list.  The `Nat` counts chain reads made. -/
def detectTokenPaymentMethods (c : DetectChain) (tokenAddress : String) :
    TokenPaymentCapabilities × Nat :=
  let address := jsToLower tokenAddress
  let e3009 := hasAnyMethod c address EIP3009_SIGNATURES
  let permit := hasMethod c address EIP2612_PERMIT
  let permit2 := checkPermit2Support c
  let supportedMethods : List String :=
    (if e3009.1 then ["eip3009"] else []) ++
    (if permit.1 then ["permit"] else []) ++
    (if permit2.1 then ["permit2", "permit2-witness"] else [])
  ({ address := address, supportedMethods := supportedMethods,
     details := { hasEIP3009 := e3009.1, hasPermit := permit.1,
                  hasPermit2Approval := permit2.1 } },
   e3009.2 + permit.2 + permit2.2)

/-- Embedding of `getRecommendedPaymentMethod` (token-detection.ts): fixed
priority `eip3009 > permit > permit2`, with `permit2-witness` mapped to
`permit2`; `none` when no advanced method is supported. -/
def getRecommendedPaymentMethod (capabilities : TokenPaymentCapabilities) :
    Option String :=
  let supportedMethods := capabilities.supportedMethods
  if supportedMethods.contains "eip3009" then some "eip3009"
  else if supportedMethods.contains "permit" then some "permit"
  else if supportedMethods.contains "permit2" ∨
      supportedMethods.contains "permit2-witness" then some "permit2"
  else none

/-- Modelled from the spec: the caching `TokenDetector` class of
`@wtflabs/x402-detector` (the detector instance used by `X402Server`) is not
among the sources — only its callers are.  Per the spec, a detection result
is cached per lower-cased token address for the lifetime of the instance and
invalidated only by `clearCache`.  The cache is the instance state. -/
structure TokenDetectorState where
  cache : List (String × TokenPaymentCapabilities)
deriving Repr, DecidableEq

/-- Modelled from the spec: `detect(tokenAddress)` on a detector instance —
serve from the per-address cache when present (no chain reads), otherwise run
`detectTokenPaymentMethods` (token-detection.ts) and record the result.
Returns the capabilities, the updated instance state, and the number of
on-chain reads performed by this call. -/
def TokenDetectorState.detect (s : TokenDetectorState) (c : DetectChain)
    (tokenAddress : String) :
    TokenPaymentCapabilities × TokenDetectorState × Nat :=
  let key := jsToLower tokenAddress
  match s.cache.lookup key with
  | some caps => (caps, s, 0)
  | none =>
    let r := detectTokenPaymentMethods c tokenAddress
    (r.1, ⟨(key, r.1) :: s.cache⟩, r.2)

/-- Modelled from the spec: `clearCache(address?)` — drop one entry or all. -/
def TokenDetectorState.clearCache (s : TokenDetectorState)
    (tokenAddress : Option String) : TokenDetectorState :=
  match tokenAddress with
  | none => ⟨[]⟩
  | some a => ⟨s.cache.filter (fun kv => kv.1 ≠ jsToLower a)⟩

/-!
## Orchestrator (`x402-server/src/server.ts`)

The `X402Server.verify`/`settle` wrappers call the facilitator, whose outcome
for the given payload/requirement pair is supplied as an `Except` value:
`Except.error m` models the facilitator throwing an exception with message
`m`, caught by the wrapper's `catch`.
-/

/-- The result object returned by `facilitator.verify` (as consumed by
server.ts: `success`, optional `error`/`errorMessage`, optional `payer`). -/
structure FacVerifyResult where
  success : Bool
  error : Option String := none
  errorMessage : Option String := none
  payer : Option String := none
deriving Repr, DecidableEq

/-- The result object returned by `facilitator.settle` (as consumed by
server.ts). -/
structure FacSettleResult where
  success : Bool
  error : Option String := none
  errorMessage : Option String := none
  transaction : Option String := none
  network : Option String := none
deriving Repr, DecidableEq

/-- A `VerifyResult` of the server wrapper. -/
structure VerifyResult where
  success : Bool
  payer : Option String := none
  error : Option String := none
deriving Repr, DecidableEq

/-- A `SettleResult` of the server wrapper. -/
structure SettleResult where
  success : Bool
  txHash : Option String := none
  network : Option String := none
  error : Option String := none
deriving Repr, DecidableEq

/-- A 402 response body: `{ x402Version: 1, accepts: [...], error? }`. -/
structure Response402 where
  x402Version : Nat
  accepts : List PaymentRequirements
  error : Option String := none
deriving Repr, DecidableEq

/-- Embedding of `X402Server.get402Response` (server.ts). -/
def get402Response (requirements : PaymentRequirements) (error : Option String) :
    Response402 :=
  { x402Version := 1, accepts := [requirements], error := error }

/-- Result of the parse stage (server.ts `parse`). -/
inductive ParseResult where
  | ok (payload : PermitPaymentPayload) (requirements : PaymentRequirements)
  | fail (response402 : Response402)
deriving Repr, DecidableEq

/-- Embedding of `X402Server.parse` (server.ts): a missing header fails with
`missing_payment_header`; the Base64 + JSON + Zod decoding of the wire
envelope (out of scope for the core, §6) is the collaborator `decode`, whose
error message is interpolated after `invalid_payment_header: `. -/
def serverParse (paymentHeader : Option String)
    (decode : String → Except String PermitPaymentPayload)
    (expectedRequirements : PaymentRequirements) : ParseResult :=
  match paymentHeader with
  | none => .fail (get402Response expectedRequirements (some "missing_payment_header"))
  | some header =>
    match decode header with
    | .error m =>
      .fail (get402Response expectedRequirements
        (some ("invalid_payment_header: " ++ m)))
    | .ok payload => .ok payload expectedRequirements

/-- Embedding of `X402Server.verify` (server.ts): recover a thrown
facilitator exception into a typed failure; map an unsuccessful or
payer-less facilitator result to a typed failure. -/
def serverVerify (fac : Except String FacVerifyResult) : VerifyResult :=
  match fac with
  | .error m => { success := false, error := some m }
  | .ok result =>
    if ¬result.success then
      { success := false,
        error := some ((result.error.getD (result.errorMessage.getD "Verification failed"))) }
    else
      match result.payer with
      | none => { success := false,
                  error := some "Payer address not found in verification result" }
      | some payer => { success := true, payer := some payer }

/-- Embedding of `X402Server.settle` (server.ts): recover a thrown
facilitator exception into a typed failure; map an unsuccessful or
transaction-less facilitator result to a typed failure. -/
def serverSettle (fac : Except String FacSettleResult)
    (requirementsNetwork : String) : SettleResult :=
  match fac with
  | .error m => { success := false, error := some m }
  | .ok result =>
    if ¬result.success then
      { success := false,
        error := some ((result.error.getD (result.errorMessage.getD "Settlement failed"))) }
    else
      match result.transaction with
      | none => { success := false,
                  error := some "Transaction hash not found in settlement result" }
      | some tx => { success := true, txHash := some tx,
                     network := some (result.network.getD requirementsNetwork) }

/-- Result of the full `process` pipeline (server.ts). -/
inductive ProcessResult where
  | ok (status : Nat) (payer : Option String) (txHash : Option String)
  | fail (status : Nat) (response : Response402)
deriving Repr, DecidableEq

/-- Embedding of `X402Server.process` (server.ts): parse → verify → settle;
the first failing stage produces a 402 with the original requirements.  The
facilitator's verify/settle outcomes for the parsed payload are the
collaborator functions `facVerify`/`facSettle`. -/
def process (paymentHeader : Option String)
    (decode : String → Except String PermitPaymentPayload)
    (facVerify : PermitPaymentPayload → PaymentRequirements → Except String FacVerifyResult)
    (facSettle : PermitPaymentPayload → PaymentRequirements → Except String FacSettleResult)
    (expectedRequirements : PaymentRequirements) : ProcessResult :=
  match serverParse paymentHeader decode expectedRequirements with
  | .fail resp => .fail 402 resp
  | .ok payload requirements =>
    let verified := serverVerify (facVerify payload requirements)
    if ¬verified.success then
      .fail 402 (get402Response expectedRequirements verified.error)
    else
      let settled := serverSettle (facSettle payload requirements) requirements.network
      if ¬settled.success then
        .fail 402 (get402Response expectedRequirements settled.error)
      else
        .ok 200 verified.payer settled.txHash

/-- The error of the first failing stage of the pipeline (a projection of the
stage functions used by `process`); `none` when every stage succeeds. -/
def pipelineFirstError (paymentHeader : Option String)
    (decode : String → Except String PermitPaymentPayload)
    (facVerify : PermitPaymentPayload → PaymentRequirements → Except String FacVerifyResult)
    (facSettle : PermitPaymentPayload → PaymentRequirements → Except String FacSettleResult)
    (expectedRequirements : PaymentRequirements) : Option String :=
  match serverParse paymentHeader decode expectedRequirements with
  | .fail resp => resp.error
  | .ok payload requirements =>
    let verified := serverVerify (facVerify payload requirements)
    if ¬verified.success then verified.error
    else
      let settled := serverSettle (facSettle payload requirements) requirements.network
      if ¬settled.success then settled.error
      else none

/-!
## Legacy `X402Server` (`src/unnamed/part_008`)
-/

/-- The `authorization` object as inspected by the legacy parse-stage
validation (`value` and `to`; `none` models an absent/falsy field). -/
structure LegacyAuthorization where
  value : Option Nat := none
  toAddress : Option String := none  -- the `to` field (`to` is reserved in Lean)
deriving Repr, DecidableEq

/-- The scheme-discriminated inner payload as inspected by the legacy
validation. -/
structure LegacyPayloadInner where
  authorizationType : Option String := none
  authorization : Option LegacyAuthorization := none
deriving Repr, DecidableEq

/-- A decoded legacy payment payload. -/
structure LegacyPaymentPayload where
  scheme : String
  network : String
  payload : Option LegacyPayloadInner := none
deriving Repr, DecidableEq

/-- Embedding of the legacy `X402Server.validatePaymentPayload` (part_008):
returns the first failing check's message, `none` when validation passes.
Checks, in order: scheme, network, exact payment amount (when an
`authorization.value` is carried), and the `payTo`-or-relayer recipient
check (when an `authorization.to` is carried). -/
def validatePaymentPayload (paymentPayload : LegacyPaymentPayload)
    (paymentRequirements : PaymentRequirements) : Option String :=
  if ¬(paymentPayload.scheme = paymentRequirements.scheme) then
    some ("Scheme mismatch: expected '" ++ paymentRequirements.scheme ++
      "', got '" ++ paymentPayload.scheme ++ "'")
  else if ¬(paymentPayload.network = paymentRequirements.network) then
    some ("Network mismatch: expected '" ++ paymentRequirements.network ++
      "', got '" ++ paymentPayload.network ++ "'")
  else
    match paymentPayload.payload with
    | none => none
    | some inner =>
      let amountError : Option String :=
        match inner.authorization with
        | none => none
        | some authorization =>
          match authorization.value with
          | none => none
          | some paymentAmount =>
            if ¬(paymentAmount = paymentRequirements.maxAmountRequired) then
              some ("Payment amount error " ++ toString paymentAmount ++
                " !== " ++ toString paymentRequirements.maxAmountRequired)
            else none
      match amountError with
      | some e => some e
      | none =>
        match inner.authorization with
        | none => none
        | some authorization =>
          match authorization.toAddress with
          | none => none
          | some t =>
            let expectedPayTo := jsToLower paymentRequirements.payTo
            let actualPayTo := jsToLower t
            let relayerMatch : Bool :=
              match paymentRequirements.extra.relayer with
              | some relayer => actualPayTo = jsToLower relayer
              | none => false
            if ¬(actualPayTo = expectedPayTo) ∧ ¬(relayerMatch = true) then
              some ("PayTo address mismatch: expected '" ++ expectedPayTo ++
                "', got '" ++ actualPayTo ++ "'")
            else none

/-- JavaScript `parseInt` on a decimal string: the leading run of digits, or
`none` (`NaN`) when the string does not start with a digit. -/
def jsParseInt (s : String) : Option Nat :=
  (String.mk (s.data.takeWhile Char.isDigit)).toNat?

/-- The hard-coded network-name → chain-id map of the legacy
`validateNetwork` (part_008). -/
def networkMap : List (String × Nat) :=
  [("ethereum", 1), ("goerli", 5), ("sepolia", 11155111), ("base", 8453),
   ("base-sepolia", 84532), ("bsc", 56), ("bsc-testnet", 97),
   ("polygon", 137), ("polygon-mumbai", 80001), ("arbitrum", 42161),
   ("arbitrum-goerli", 421613), ("optimism", 10), ("optimism-goerli", 420),
   ("avalanche", 43114), ("avalanche-fuji", 43113)]

/-- Embedding of the legacy `X402Server.validateNetwork` (part_008): an
`eip155:<id>` network must match the client chain id (a `NaN` parse compares
unequal); a known network name must map to the client chain id; any other
network string passes ("宽松验证" — lenient validation). -/
def validateNetwork (schemaNetwork : String) (clientChainId : Nat) : Bool :=
  if jsStartsWith schemaNetwork "eip155:" then
    let seg := (schemaNetwork.splitOn ":").getD 1 ""
    let seg := if seg = "" then "0" else seg
    match jsParseInt seg with
    | some chainId => chainId = clientChainId
    | none => false
  else
    match networkMap.lookup schemaNetwork with
    | some expectedChainId => expectedChainId = clientChainId
    | none => true

/-!
## Theorems
-/

/-- **C7**: `getRecommendedPaymentMethod` recommends by the fixed priority
`eip3009 > permit > permit2`: it returns `eip3009` whenever `eip3009` is
among the supported methods, otherwise `permit` whenever `permit` is
supported, otherwise `permit2` whenever `permit2` (or its witness variant)
is supported, and `none` when no advanced method is supported. -/
theorem recommend_fixed_priority (caps : TokenPaymentCapabilities) :
    ("eip3009" ∈ caps.supportedMethods →
      getRecommendedPaymentMethod caps = some "eip3009") ∧
    ("eip3009" ∉ caps.supportedMethods →
      "permit" ∈ caps.supportedMethods →
      getRecommendedPaymentMethod caps = some "permit") ∧
    ("eip3009" ∉ caps.supportedMethods →
      "permit" ∉ caps.supportedMethods →
      ("permit2" ∈ caps.supportedMethods ∨
        "permit2-witness" ∈ caps.supportedMethods) →
      getRecommendedPaymentMethod caps = some "permit2") ∧
    ("eip3009" ∉ caps.supportedMethods →
      "permit" ∉ caps.supportedMethods →
      "permit2" ∉ caps.supportedMethods →
      "permit2-witness" ∉ caps.supportedMethods →
      getRecommendedPaymentMethod caps = none) := by
  refine ⟨fun h1 => ?_, fun h1 h2 => ?_, fun h1 h2 h3 => ?_, fun h1 h2 h3 h4 => ?_⟩ <;>
    simp_all [getRecommendedPaymentMethod]

/-- **C7** witness: a token supporting only Permit2 (and its witness variant)
is recommended `permit2`. -/
theorem recommend_fixed_priority_witness :
    getRecommendedPaymentMethod
      { address := "0xtoken", supportedMethods := ["permit2", "permit2-witness"],
        details := { hasEIP3009 := false, hasPermit := false,
                     hasPermit2Approval := true } } = some "permit2" :=
  (recommend_fixed_priority _).2.2.1 (by decide) (by decide) (Or.inl (by decide))

/-- **C10**: the legacy `validateNetwork` returns `true` for every client
chain id whenever the requirement's network string neither starts with
`eip155:` nor is one of the fifteen hard-coded network names — unknown
network identifiers are never reported as a mismatch. -/
theorem validateNetwork_unknown_passes (net : String) (clientChainId : Nat)
    (h1 : jsStartsWith net "eip155:" = false)
    (h2 : networkMap.lookup net = none) :
    validateNetwork net clientChainId = true := by
  simp [validateNetwork, h1, h2]

/-- **C10** witness: the unknown network name `solana-mainnet` passes
validation against an arbitrary chain id. -/
theorem validateNetwork_unknown_passes_witness :
    validateNetwork "solana-mainnet" 999999 = true :=
  validateNetwork_unknown_passes "solana-mainnet" 999999 (by decide) (by decide)

/-- **C3**: calling `detect` twice on the same detector instance with no
intervening `clearCache` serves the second call from the per-address cache —
it performs zero on-chain reads — and both calls return identical
`TokenPaymentCapabilities`. -/
theorem detect_twice_cached (c : DetectChain) (s : TokenDetectorState)
    (tokenAddress : String) :
    (((s.detect c tokenAddress).2.1).detect c tokenAddress).1 =
      (s.detect c tokenAddress).1 ∧
    (((s.detect c tokenAddress).2.1).detect c tokenAddress).2.2 = 0 := by
  unfold TokenDetectorState.detect
  cases h : s.cache.lookup (jsToLower tokenAddress) with
  | some caps => simp [h]
  | none => simp [h, List.lookup]

/-- Requirement fixture: 1000 base units to `0xpayto`, with pre-fetched
EIP-712 domain data in `extra`. -/
def req1000 : PaymentRequirements :=
  { scheme := "exact", network := "bsc-testnet", maxAmountRequired := 1000,
    payTo := "0xpayto", asset := "0xasset",
    extra := { name := some "TestToken", version := some "1" } }

/-- Payload fixture: a permit payload by `0xowner` for `0xpayto` with the
given signed value and deadline. -/
def basePayload (value deadline : Nat) : PermitPaymentPayload :=
  { x402Version := 1, scheme := "exact", network := "bsc-testnet",
    payload := { authorizationType := "permit", signature := "0xsig",
                 authorization := { owner := "0xowner", spender := "0xpayto",
                                    value := value, nonce := 0,
                                    deadline := deadline } } }

/-- Chain fixture: every read succeeds, the typed-data signature check
passes, and the owner balance is ample. -/
def chainOkSig : ChainView :=
  { networkId := fun _ => some 97,
    tokenName := fun _ => .ok "TestToken",
    tokenVersion := fun _ => .ok "1",
    verifySig := fun _ => .ok true,
    balanceOf := fun _ _ => .ok 1000000 }

/-- Chain fixture: like `chainOkSig`, but the typed-data signature check
reports that the recovered signer does not match the declared owner. -/
def chainBadSig : ChainView :=
  { chainOkSig with verifySig := fun _ => .ok false }

/-- **C1** (counterexample): the payload with deadline 10 is strictly expired
at verification time 100, yet — its signature check failing — `verify`
reports `invalid_permit_signature`, not `permit_expired`: the claim's
"regardless of signature validity" does not hold of the code, whose signature
check precedes the deadline check. -/
theorem verify_expired_invalid_sig_counterexample :
    (basePayload 1000 10).payload.authorization.deadline < 100 ∧
    (verify chainBadSig 100 (basePayload 1000 10) req1000).1 =
      .ok { isValid := false, invalidReason := some "invalid_permit_signature",
            payer := some "0xowner" } ∧
    some "invalid_permit_signature" ≠ some "permit_expired" :=
  ⟨by decide, by rfl, by decide⟩

/-- **C1** (amended): a permit payload that passes the discriminator check,
whose EIP-712 domain resolves, whose signature check passes, and whose
deadline is strictly in the past at verification time, is rejected with
`permit_expired`.  (An expired payload whose signature check fails is instead
rejected with `invalid_permit_signature`, the signature check coming first.) -/
theorem verify_expired_valid_sig_expired
    (c : ChainView) (now : Nat) (p : PermitPaymentPayload)
    (r : PaymentRequirements) (cid : Nat) (nm vv : String)
    (hAuth : p.payload.authorizationType = "permit")
    (hS : p.scheme = "exact") (hRS : r.scheme = "exact")
    (hCid : c.networkId p.network = some cid)
    (hNm : r.extra.name = some nm) (hVv : r.extra.version = some vv)
    (hSig : c.verifySig
      { owner := p.payload.authorization.owner,
        spender := p.payload.authorization.spender,
        value := p.payload.authorization.value,
        nonce := p.payload.authorization.nonce,
        deadline := p.payload.authorization.deadline,
        name := nm, version := vv, chainId := cid,
        verifyingContract := r.asset,
        signature := p.payload.signature } = .ok true)
    (hExp : p.payload.authorization.deadline < now) :
    (verify c now p r).1 =
      .ok { isValid := false, invalidReason := some "permit_expired",
            payer := some p.payload.authorization.owner } := by
  unfold verify
  simp [SCHEME, hAuth, hS, hRS, hCid, hNm, hVv, hSig, hExp]

/-- **C1** witness: the expired (deadline 10 < 100) payload with a passing
signature check is rejected `permit_expired`. -/
theorem verify_expired_valid_sig_expired_witness :
    (verify chainOkSig 100 (basePayload 1000 10) req1000).1 =
      .ok { isValid := false, invalidReason := some "permit_expired",
            payer := some "0xowner" } :=
  verify_expired_valid_sig_expired chainOkSig 100 (basePayload 1000 10) req1000
    97 "TestToken" "1" rfl rfl rfl rfl rfl rfl rfl (by decide)

/-- **C2** (counterexample): at a concrete input passing the discriminator,
signature, deadline and spender checks, with ample owner balance and signed
value 500 < 1000 required, `verify` fails with reason
`invalid_exact_evm_payload_authorization_value` — not the claim's
`invalid_exact_payload_value`. -/
theorem verify_underpay_reason_counterexample :
    (verify chainOkSig 100 (basePayload 500 9999) req1000).1 =
      .ok { isValid := false,
            invalidReason := some "invalid_exact_evm_payload_authorization_value",
            payer := some "0xowner" } ∧
    some "invalid_exact_evm_payload_authorization_value" ≠
      some "invalid_exact_payload_value" :=
  ⟨by rfl, by decide⟩

/-- **C2** (amended): for a permit payload that passes the discriminator,
signature, deadline and spender checks and whose owner balance covers the
requirement — a signed value strictly below `maxAmountRequired` fails with
reason `invalid_exact_evm_payload_authorization_value`, and a signed value
exactly equal to `maxAmountRequired` succeeds with `payer` = owner (the
boundary is inclusive). -/
theorem verify_amount_boundary
    (c : ChainView) (now : Nat) (p : PermitPaymentPayload)
    (r : PaymentRequirements) (cid : Nat) (nm vv : String) (b : Nat)
    (hAuth : p.payload.authorizationType = "permit")
    (hS : p.scheme = "exact") (hRS : r.scheme = "exact")
    (hCid : c.networkId p.network = some cid)
    (hNm : r.extra.name = some nm) (hVv : r.extra.version = some vv)
    (hSig : c.verifySig
      { owner := p.payload.authorization.owner,
        spender := p.payload.authorization.spender,
        value := p.payload.authorization.value,
        nonce := p.payload.authorization.nonce,
        deadline := p.payload.authorization.deadline,
        name := nm, version := vv, chainId := cid,
        verifyingContract := r.asset,
        signature := p.payload.signature } = .ok true)
    (hNotExp : ¬p.payload.authorization.deadline < now)
    (hSp : jsToLower p.payload.authorization.spender = jsToLower r.payTo)
    (hBal : c.balanceOf r.asset p.payload.authorization.owner = .ok b)
    (hCover : ¬b < r.maxAmountRequired) :
    (p.payload.authorization.value < r.maxAmountRequired →
      (verify c now p r).1 =
        .ok { isValid := false,
              invalidReason := some "invalid_exact_evm_payload_authorization_value",
              payer := some p.payload.authorization.owner }) ∧
    (p.payload.authorization.value = r.maxAmountRequired →
      (verify c now p r).1 =
        .ok { isValid := true, payer := some p.payload.authorization.owner }) := by
  constructor
  · intro hV
    unfold verify
    simp [SCHEME, hAuth, hS, hRS, hCid, hNm, hVv, hSig, hNotExp, hSp, hBal,
          hCover, hV]
  · intro hV
    rw [hV] at hSig
    unfold verify
    simp [SCHEME, hAuth, hS, hRS, hCid, hNm, hVv, hSig, hNotExp, hSp, hBal,
          hCover, hV]

/-- **C2** witness: signed value 1000 = required 1000 verifies successfully
with `payer` = owner; value 500 < 1000 fails with the underpayment reason. -/
theorem verify_amount_boundary_witness :
    (verify chainOkSig 100 (basePayload 1000 9999) req1000).1 =
      .ok { isValid := true, payer := some "0xowner" } ∧
    (verify chainOkSig 100 (basePayload 500 9999) req1000).1 =
      .ok { isValid := false,
            invalidReason := some "invalid_exact_evm_payload_authorization_value",
            payer := some "0xowner" } :=
  ⟨(verify_amount_boundary chainOkSig 100 (basePayload 1000 9999) req1000
      97 "TestToken" "1" 1000000 rfl rfl rfl rfl rfl rfl rfl (by decide)
      (by rfl) rfl (by decide)).2 rfl,
   (verify_amount_boundary chainOkSig 100 (basePayload 500 9999) req1000
      97 "TestToken" "1" 1000000 rfl rfl rfl rfl rfl rfl rfl (by decide)
      (by rfl) rfl (by decide)).1 (by decide)⟩

/-- Chain fixture: like `chainOkSig`, but the balance read fails (RPC
unreachable). -/
def chainBalanceDown : ChainView :=
  { chainOkSig with balanceOf := fun _ _ => .error "rpc unreachable" }

/-- Wallet fixture: verification succeeds, but transaction submission is
rejected before inclusion. -/
def walletSubmitFail : WalletView :=
  { chain := chainOkSig,
    writeSettleWithPermit := fun _ _ _ _ _ _ => .error "tx rejected",
    waitForReceipt := fun _ => .ok true }

/-- **C4** (counterexample): the balance read failing during verification
makes the facilitator's `verify` propagate the exception (`Except.error`)
instead of returning the typed `invalid_network` failure, and a submission
failure during settlement makes `settle` propagate the exception instead of
returning a typed `broadcast_failed` outcome (no such reason exists in the
code). -/
theorem facilitator_exception_escape_counterexample :
    (verify chainBalanceDown 100 (basePayload 1000 9999) req1000).1 =
      .error "rpc unreachable" ∧
    (settle walletSubmitFail 100 (basePayload 1000 9999) req1000).1 =
      .error "tx rejected" :=
  ⟨by rfl, by rfl⟩

/-- **C4** (amended): a chain failure of the EIP-712 domain reads (token
name lookup, with no pre-fetched `extra.name`) during verification is
recovered into the typed `invalid_network` failure; exceptions that do
escape the facilitator (the balance read, the settlement submission) are
recovered at the `X402Server` wrapper boundary into typed failures carrying
the exception message — there is no `broadcast_failed` reason in the code. -/
theorem typed_failure_boundaries
    (c : ChainView) (now : Nat) (p : PermitPaymentPayload)
    (r : PaymentRequirements) (cid : Nat) (e : String)
    (hAuth : p.payload.authorizationType = "permit")
    (hS : p.scheme = "exact") (hRS : r.scheme = "exact")
    (hCid : c.networkId p.network = some cid)
    (hNm : r.extra.name = none)
    (hName : c.tokenName r.asset = .error e) :
    (verify c now p r).1 =
      .ok { isValid := false, invalidReason := some "invalid_network",
            payer := some p.payload.authorization.owner } ∧
    (∀ m, serverVerify (.error m) = { success := false, error := some m }) ∧
    (∀ m net, serverSettle (.error m) net = { success := false, error := some m }) := by
  refine ⟨?_, fun m => rfl, fun m net => rfl⟩
  unfold verify
  simp [SCHEME, hAuth, hS, hRS, hCid, hNm, hName]

/-- Requirement fixture: like `req1000` but without a pre-fetched token
name, forcing the on-chain `name()` read. -/
def reqNoName : PaymentRequirements :=
  { req1000 with extra := { name := none, version := some "1", relayer := none } }

/-- Chain fixture: like `chainOkSig`, but the token `name()` read fails. -/
def chainNameDown : ChainView :=
  { chainOkSig with tokenName := fun _ => .error "rpc down" }

/-- **C4** witness: a failing token-name read yields the typed
`invalid_network` failure, and the server wrappers convert a thrown
facilitator exception into typed failures. -/
theorem typed_failure_boundaries_witness :
    (verify chainNameDown 100 (basePayload 1000 9999) reqNoName).1 =
      .ok { isValid := false, invalidReason := some "invalid_network",
            payer := some "0xowner" } ∧
    serverVerify (.error "boom") = { success := false, error := some "boom" } ∧
    serverSettle (.error "boom") "bsc-testnet" =
      { success := false, error := some "boom" } :=
  ⟨(typed_failure_boundaries chainNameDown 100 (basePayload 1000 9999) reqNoName
      97 "rpc down" rfl rfl rfl rfl rfl rfl).1,
   (typed_failure_boundaries chainNameDown 100 (basePayload 1000 9999) reqNoName
      97 "rpc down" rfl rfl rfl rfl rfl rfl).2.1 "boom",
   (typed_failure_boundaries chainNameDown 100 (basePayload 1000 9999) reqNoName
      97 "rpc down" rfl rfl rfl rfl rfl rfl).2.2 "boom" "bsc-testnet"⟩

/-- Every chain operation in the trace of `verify` is a read: the verifier
has no write in any of its paths. -/
theorem verify_ops_no_write (c : ChainView) (now : Nat)
    (p : PermitPaymentPayload) (r : PaymentRequirements) :
    ∀ op ∈ (verify c now p r).2, op.isWrite = false := by
  unfold verify
  dsimp only
  repeat' split
  all_goals simp [ChainOp.isWrite]

/-- When the re-run verification inside `settle` returns a typed failure,
`settle` returns the verifier's reason and performs no further chain
operation beyond the verification's own (read-only) trace. -/
theorem settle_reverify_failure (w : WalletView) (now : Nat)
    (p : PermitPaymentPayload) (r : PaymentRequirements) (v : VerifyResponse)
    (hAuth : p.payload.authorizationType = "permit")
    (hv : (verify w.chain now p r).1 = .ok v) (hInvalid : v.isValid = false) :
    settle w now p r =
      (.ok { success := false, network := p.network, transaction := "",
             errorReason := some (v.invalidReason.getD "invalid_payment"),
             payer := p.payload.authorization.owner },
       (verify w.chain now p r).2) := by
  unfold settle
  rcases hver : verify w.chain now p r with ⟨res, ops⟩
  rw [hver] at hv
  cases res with
  | error e => cases hv
  | ok val =>
    cases hv
    simp [hAuth, hInvalid]

/-- A state-mutating operation occurs in the trace of `settle` only when the
re-run verification returned a success. -/
theorem settle_write_implies_verified (w : WalletView) (now : Nat)
    (p : PermitPaymentPayload) (r : PaymentRequirements)
    (op : ChainOp) (hop : op ∈ (settle w now p r).2)
    (hw : op.isWrite = true) :
    ∃ v, (verify w.chain now p r).1 = .ok v ∧ v.isValid = true := by
  by_cases hAuth : p.payload.authorizationType = "permit"
  case neg =>
    unfold settle at hop
    simp [hAuth] at hop
  case pos =>
    rcases hver : verify w.chain now p r with ⟨res, ops⟩
    unfold settle at hop
    rw [hver] at hop
    cases res with
    | error e =>
      simp [hAuth] at hop
      have hnw := verify_ops_no_write w.chain now p r op (by rw [hver]; exact hop)
      simp [hw] at hnw
    | ok v =>
      by_cases hval : v.isValid = true
      · exact ⟨v, by first | rw [hver] | rfl, hval⟩
      · simp [hAuth, hval] at hop
        have hnw := verify_ops_no_write w.chain now p r op (by rw [hver]; exact hop)
        simp [hw] at hnw

/-- **C5**: `verify` issues no state-mutating chain call (its trace is all
reads); when the re-run verification inside `settle` fails, `settle` returns
a failure carrying the verifier's reason and its trace is the verification's
own read-only trace (no transaction submitted); and any state-mutating
operation in `settle`'s trace implies the re-run verification succeeded. -/
theorem verify_reads_only_settle_write_gated
    (w : WalletView) (now : Nat) (p : PermitPaymentPayload)
    (r : PaymentRequirements) :
    (∀ op ∈ (verify w.chain now p r).2, op.isWrite = false) ∧
    (∀ v : VerifyResponse, p.payload.authorizationType = "permit" →
      (verify w.chain now p r).1 = .ok v → v.isValid = false →
      settle w now p r =
        (.ok { success := false, network := p.network, transaction := "",
               errorReason := some (v.invalidReason.getD "invalid_payment"),
               payer := p.payload.authorization.owner },
         (verify w.chain now p r).2)) ∧
    (∀ op ∈ (settle w now p r).2, op.isWrite = true →
      ∃ v, (verify w.chain now p r).1 = .ok v ∧ v.isValid = true) :=
  ⟨verify_ops_no_write w.chain now p r,
   fun v hAuth hv hInvalid => settle_reverify_failure w now p r v hAuth hv hInvalid,
   fun op hop hw => settle_write_implies_verified w now p r op hop hw⟩

/-- Wallet fixture: signature check fails during (re-)verification, the
write path would succeed if reached. -/
def walletBadSig : WalletView :=
  { chain := chainBadSig,
    writeSettleWithPermit := fun _ _ _ _ _ _ => .ok "0xtxhash",
    waitForReceipt := fun _ => .ok true }

/-- **C5** witness: with a failing re-verification (bad signature), `settle`
returns the verifier's reason and its trace holds no write. -/
theorem verify_reads_only_settle_write_gated_witness :
    settle walletBadSig 100 (basePayload 1000 9999) req1000 =
      (.ok { success := false, network := "bsc-testnet", transaction := "",
             errorReason := some "invalid_permit_signature", payer := "0xowner" },
       [ChainOp.read "verifyTypedData"]) :=
  (verify_reads_only_settle_write_gated walletBadSig 100 (basePayload 1000 9999)
      req1000).2.1
    { isValid := false, invalidReason := some "invalid_permit_signature",
      payer := some "0xowner" } rfl rfl rfl

/-- **C6**: whenever the `process` pipeline terminates in failure at any
stage (parse, verify, or settle), the 402 response carries the original
`PaymentRequirements` unchanged as the sole element of its `accepts` list,
alongside the failure reason of the first failing stage; and when `process`
succeeds, no stage failed. -/
theorem process_failure_carries_requirements
    (paymentHeader : Option String)
    (decode : String → Except String PermitPaymentPayload)
    (facVerify : PermitPaymentPayload → PaymentRequirements →
      Except String FacVerifyResult)
    (facSettle : PermitPaymentPayload → PaymentRequirements →
      Except String FacSettleResult)
    (req : PaymentRequirements) :
    match process paymentHeader decode facVerify facSettle req with
    | .fail status resp =>
        status = 402 ∧ resp.x402Version = 1 ∧ resp.accepts = [req] ∧
        resp.error = pipelineFirstError paymentHeader decode facVerify facSettle req
    | .ok _ _ _ =>
        pipelineFirstError paymentHeader decode facVerify facSettle req = none := by
  unfold process pipelineFirstError serverParse
  cases paymentHeader with
  | none => simp [get402Response]
  | some header =>
    cases hd : decode header with
    | error m => simp [hd, get402Response]
    | ok payload =>
      by_cases hv : (serverVerify (facVerify payload req)).success = true
      · by_cases hs : (serverSettle (facSettle payload req) req.network).success = true
        · simp [hd, hv, hs]
        · simp [hd, hv, hs, get402Response]
      · simp [hd, hv, get402Response]

/-- **C8**: the legacy parse-stage validation rejects every decoded payload
whose carried `authorization.value` differs from `maxAmountRequired` — so a
payload signing strictly more than required fails at the parse stage — even
though the permit verifier's own amount boundary accepts a signed value
strictly above the requirement (second conjunct: value 2000 against a
1000-unit requirement verifies successfully). -/
theorem legacy_parse_exact_amount
    (p : LegacyPaymentPayload) (r : PaymentRequirements)
    (inner : LegacyPayloadInner) (a : LegacyAuthorization) (v : Nat)
    (hp : p.payload = some inner) (ha : inner.authorization = some a)
    (hv : a.value = some v) (hne : v ≠ r.maxAmountRequired) :
    (validatePaymentPayload p r).isSome = true ∧
    (verify chainOkSig 100 (basePayload 2000 9999) req1000).1 =
      .ok { isValid := true, payer := some "0xowner" } := by
  refine ⟨?_, by rfl⟩
  unfold validatePaymentPayload
  by_cases h1 : p.scheme = r.scheme
  · by_cases h2 : p.network = r.network
    · simp [h1, h2, hp, ha, hv, hne]
    · simp [h1, h2]
  · simp [h1]

/-- Legacy payload fixture: an overpaying payload (value 2000 against a
1000-unit requirement) bound to the requirement's `payTo`. -/
def legacyOverpay : LegacyPaymentPayload :=
  { scheme := "exact", network := "bsc-testnet",
    payload := some { authorizationType := some "permit",
                      authorization := some { value := some 2000,
                                              toAddress := some "0xpayto" } } }

/-- **C8** witness: the overpaying payload is rejected by the legacy parse
validation while the permit verifier accepts overpayment. -/
theorem legacy_parse_exact_amount_witness :
    (validatePaymentPayload legacyOverpay req1000).isSome = true ∧
    (verify chainOkSig 100 (basePayload 2000 9999) req1000).1 =
      .ok { isValid := true, payer := some "0xowner" } :=
  legacy_parse_exact_amount legacyOverpay req1000
    { authorizationType := some "permit",
      authorization := some { value := some 2000, toAddress := some "0xpayto" } }
    { value := some 2000, toAddress := some "0xpayto" } 2000
    rfl rfl rfl (by decide)

/-- **C9**: the legacy parse-stage recipient check passes not only when the
carried `authorization.to` equals the requirement's `payTo`
(case-insensitively) but also when it equals the requirement's
`extra.relayer` address — a payload bound to the relayer rather than the
declared recipient is accepted at this layer. -/
theorem legacy_parse_accepts_relayer
    (p : LegacyPaymentPayload) (r : PaymentRequirements)
    (inner : LegacyPayloadInner) (a : LegacyAuthorization) (t relayer : String)
    (hS : p.scheme = r.scheme) (hN : p.network = r.network)
    (hp : p.payload = some inner) (ha : inner.authorization = some a)
    (amountOk : ∀ v, a.value = some v → v = r.maxAmountRequired)
    (ht : a.toAddress = some t)
    (hRel : r.extra.relayer = some relayer)
    (hMatch : jsToLower t = jsToLower r.payTo ∨ jsToLower t = jsToLower relayer) :
    validatePaymentPayload p r = none := by
  unfold validatePaymentPayload
  cases hval : a.value with
  | none =>
    rcases hMatch with h | h <;> simp [hS, hN, hp, ha, ht, hRel, hval, h]
  | some v =>
    have hveq := amountOk v hval
    rcases hMatch with h | h <;> simp [hS, hN, hp, ha, ht, hRel, hval, hveq, h]

/-- Requirement fixture: like `req1000` but with a relayer address in
`extra`, distinct from `payTo`. -/
def relayerReq : PaymentRequirements :=
  { req1000 with extra := { name := some "TestToken", version := some "1",
                            relayer := some "0xRelayer" } }

/-- Legacy payload fixture: bound to the relayer address, not `payTo`. -/
def legacyRelayerBound : LegacyPaymentPayload :=
  { scheme := "exact", network := "bsc-testnet",
    payload := some { authorizationType := some "permit",
                      authorization := some { value := some 1000,
                                              toAddress := some "0xrelayer" } } }

/-- **C9** witness: a payload whose `authorization.to` is the relayer
address (differing from `payTo`) passes the legacy parse validation. -/
theorem legacy_parse_accepts_relayer_witness :
    validatePaymentPayload legacyRelayerBound relayerReq = none :=
  legacy_parse_accepts_relayer legacyRelayerBound relayerReq
    { authorizationType := some "permit",
      authorization := some { value := some 1000, toAddress := some "0xrelayer" } }
    { value := some 1000, toAddress := some "0xrelayer" } "0xrelayer" "0xRelayer"
    rfl rfl rfl rfl
    (fun v hv => (Option.some.inj hv).symm)
    rfl rfl (Or.inr (by decide))
